import Mathlib

/-!
Verification of the photag photo-catalog maintainer.

This file gives a shallow embedding of the core of the program
(src/photodata.rs, src/save.rs, src/image.rs and the orchestration logic
of src/gui.rs) and settles the specification claims against it.

External capabilities (the filesystem, the kamadak-exif reader, the
mozjpeg codec, the chrono clock) are modelled as explicit parameters:
a filesystem read becomes an `Option` argument, the EXIF extractor
becomes a function `String → Option MinimalExif`, and machine timestamps
become integers (chrono instants are totally ordered).  Rust `panic!`
and `unwrap` failures are modelled with `Option`/`Except`.
-/

namespace Photag

/-- `PhotoData` from src/photodata.rs: the persisted record for one photo. -/
structure PhotoData where
  file_name : String
  photo_id : String
  photo_src : String
  photo_lazy_src : String
  alt : String
  title : Option String
  year : Option String
  month : Option String
  day : Option String
  hour : Option String
  minutes : Option String
  body : Option String
  lens : Option String
  time : Option String
  focal_length : Option String
  f_value : Option String
  iso : Option String
  location : String
deriving DecidableEq, Repr

/-- `GUIPhotoData` from src/photodata.rs: same record with every optional
field held as a plain string (empty string standing for absent). -/
structure GUIPhotoData where
  file_name : String
  photo_id : String
  photo_src : String
  photo_lazy_src : String
  alt : String
  title : String
  year : String
  month : String
  day : String
  hour : String
  minutes : String
  body : String
  lens : String
  time : String
  focal_length : String
  f_value : String
  iso : String
  location : String
deriving DecidableEq, Repr

/-- `ImportPhotoData` from src/photodata.rs: one entry of the externally
maintained import manifest. -/
structure ImportPhotoData where
  file_name : String
  id : String
  alt : String
  location : String
deriving DecidableEq, Repr

/-- `MinimalExif` from src/photodata.rs: the fields kept from EXIF. -/
structure MinimalExif where
  year : Option String
  month : Option String
  day : Option String
  hour : Option String
  minutes : Option String
  body : Option String
  lens : Option String
  time : Option String
  focal_length : Option String
  f_value : Option String
  iso : Option String
deriving DecidableEq, Repr

/-- `GroupData` from src/photodata.rs. -/
structure GroupData where
  group_id : String
  photo_id_list : List String
  year : Option String
  month : Option String
  day : Option String
  hour : Option String
  minutes : Option String
  title : String
  description : String
  location : Option String
deriving DecidableEq, Repr

/-- `GUIGroupData` from src/photodata.rs. -/
structure GUIGroupData where
  group_id : String
  photo_id_list : List String
  year : String
  month : String
  day : String
  hour : String
  minutes : String
  title : String
  description : String
  location : String
deriving DecidableEq, Repr

/-- `gui_photo_data_to_photo_data` from src/photodata.rs: empty strings
become `none`, everything else `some`. -/
def gui_photo_data_to_photo_data (g : GUIPhotoData) : PhotoData where
  file_name := g.file_name
  photo_id := g.photo_id
  photo_src := g.photo_src
  photo_lazy_src := g.photo_lazy_src
  alt := g.alt
  title := if g.title.isEmpty then none else some g.title
  year := if g.year.isEmpty then none else some g.year
  month := if g.month.isEmpty then none else some g.month
  day := if g.day.isEmpty then none else some g.day
  hour := if g.hour.isEmpty then none else some g.hour
  minutes := if g.minutes.isEmpty then none else some g.minutes
  body := if g.body.isEmpty then none else some g.body
  lens := if g.lens.isEmpty then none else some g.lens
  time := if g.time.isEmpty then none else some g.time
  focal_length := if g.focal_length.isEmpty then none else some g.focal_length
  f_value := if g.f_value.isEmpty then none else some g.f_value
  iso := if g.iso.isEmpty then none else some g.iso
  location := g.location

/-- `gui_photo_data_to_import_photo_data` from src/photodata.rs. -/
def gui_photo_data_to_import_photo_data (g : GUIPhotoData) : ImportPhotoData where
  file_name := g.file_name
  id := g.photo_id
  alt := g.alt
  location := g.location

/-- `gui_group_data_to_group_data` from src/photodata.rs. -/
def gui_group_data_to_group_data (g : GUIGroupData) : GroupData where
  group_id := g.group_id
  photo_id_list := g.photo_id_list
  year := if g.year.isEmpty then none else some g.year
  month := if g.month.isEmpty then none else some g.month
  day := if g.day.isEmpty then none else some g.day
  hour := if g.hour.isEmpty then none else some g.hour
  minutes := if g.minutes.isEmpty then none else some g.minutes
  title := g.title
  description := g.description
  location := if g.location.isEmpty then none else some g.location

/-! ### Association-list model of `std::collections::HashMap`

`HashMap::get` and `HashMap::insert` are modelled on association lists:
`alookup` returns the binding of a key and `ainsert` overwrites it (the
lists built below never hold two bindings of one key, matching the Rust
map).  Iteration order is irrelevant to every statement proved here. -/

/-- Association-list stand-in for `HashMap<String, α>`. -/
abbrev AList (α : Type) : Type := List (String × α)

/-- `HashMap::get`. -/
def alookup {α : Type} : AList α → String → Option α
  | [], _ => none
  | (k, v) :: rest, key => if k = key then some v else alookup rest key

/-- `HashMap::insert`: replace the binding of the key, or append one. -/
def ainsert {α : Type} : AList α → String → α → AList α
  | [], key, v => [(key, v)]
  | (k, w) :: rest, key, v =>
      if k = key then (k, v) :: rest else (k, w) :: ainsert rest key v

/-- The derived-output locator `/images/normal/{id}.JPG` built by the
`format!` calls in src/photodata.rs. -/
def normalSrc (id : String) : String := "/images/normal/" ++ id ++ ".JPG"

/-- The derived-output locator `/images/lazy/{id}.JPG` built by the
`format!` calls in src/photodata.rs. -/
def lazySrc (id : String) : String := "/images/lazy/" ++ id ++ ".JPG"

/-- The EXIF-extraction capability: `parse_exif_data` applied to a path,
with its `Result` modelled as `Option` (`none` = extraction failed). -/
abbrev ExifFs : Type := String → Option MinimalExif

/-- The record built for an import entry whose EXIF extraction failed
(the `Err(_) =>` arm of `merge_photo_data_based_and_import_photo_data`):
`photo_id` is left empty and every optional field is `None`. -/
def failRecord (imp : ImportPhotoData) : PhotoData where
  file_name := imp.file_name
  photo_id := ""
  photo_src := normalSrc imp.id
  photo_lazy_src := lazySrc imp.id
  alt := imp.alt
  title := none
  year := none
  month := none
  day := none
  hour := none
  minutes := none
  body := none
  lens := none
  time := none
  focal_length := none
  f_value := none
  iso := none
  location := imp.location

/-- The record built for a new import entry whose EXIF extraction
succeeded (the `Ok(minimal_exif_data) =>` arm). -/
def exifRecord (imp : ImportPhotoData) (me : MinimalExif) : PhotoData where
  file_name := imp.file_name
  photo_id := imp.id
  photo_src := normalSrc imp.id
  photo_lazy_src := lazySrc imp.id
  alt := imp.alt
  title := none
  year := me.year
  month := me.month
  day := me.day
  hour := me.hour
  minutes := me.minutes
  body := me.body
  lens := me.lens
  time := me.time
  focal_length := me.focal_length
  f_value := me.f_value
  iso := me.iso
  location := imp.location

/-- The body of the per-entry `match` in
`merge_photo_data_based_and_import_photo_data` (src/photodata.rs):
an existing record is copied with `file_name`, `photo_id`, the two
locators, `alt` and `location` overwritten; otherwise the EXIF
extractor is consulted. -/
def mergeRecord (exif : ExifFs) (originalPath : String)
    (orig : AList PhotoData) (imp : ImportPhotoData) : PhotoData :=
  match alookup orig imp.id with
  | some photoData =>
      { photoData with
        file_name := imp.file_name
        photo_id := imp.id
        photo_src := normalSrc imp.id
        photo_lazy_src := lazySrc imp.id
        alt := imp.alt
        location := imp.location }
  | none =>
      match exif (originalPath ++ "/" ++ imp.file_name) with
      | some me => exifRecord imp me
      | none => failRecord imp

/-- `merge_photo_data_based_and_import_photo_data` from src/photodata.rs.
The Rust function returns `Result` but never errs; the id list is the
manifest's ids in manifest order and the record list is the per-entry
merge in the same order. -/
def merge_photo_data_based_and_import_photo_data (exif : ExifFs)
    (original_photo_data_lst : AList PhotoData)
    (import_photo_data_lst : List ImportPhotoData)
    (original_path : String) : List String × List PhotoData :=
  (import_photo_data_lst.map (fun imp => imp.id),
   import_photo_data_lst.map (mergeRecord exif original_path original_photo_data_lst))

/-- The `Err(_) =>` arm of the GUI-map merge: all-empty strings, the
empty `photo_id` sentinel, `alt`/`location` from the import record. -/
def guiFailRecord (imp : ImportPhotoData) : GUIPhotoData where
  file_name := imp.file_name
  photo_id := ""
  photo_src := normalSrc imp.id
  photo_lazy_src := lazySrc imp.id
  alt := imp.alt
  title := ""
  year := ""
  month := ""
  day := ""
  hour := ""
  minutes := ""
  body := ""
  lens := ""
  time := ""
  focal_length := ""
  f_value := ""
  iso := ""
  location := imp.location

/-- The `Ok(minimal_exif_data) =>` arm of the GUI-map merge:
`unwrap_or_default` turns each absent optional field into `""`. -/
def guiExifRecord (imp : ImportPhotoData) (me : MinimalExif) : GUIPhotoData where
  file_name := imp.file_name
  photo_id := imp.id
  photo_src := normalSrc imp.id
  photo_lazy_src := lazySrc imp.id
  alt := imp.alt
  title := ""
  year := me.year.getD ""
  month := me.month.getD ""
  day := me.day.getD ""
  hour := me.hour.getD ""
  minutes := me.minutes.getD ""
  body := me.body.getD ""
  lens := me.lens.getD ""
  time := me.time.getD ""
  focal_length := me.focal_length.getD ""
  f_value := me.f_value.getD ""
  iso := me.iso.getD ""
  location := imp.location

/-- The per-entry `match` of
`merge_gui_photo_data_based_and_import_photo_data` (src/photodata.rs). -/
def mergeGuiRecord (exif : ExifFs) (originalPath : String)
    (m : AList GUIPhotoData) (imp : ImportPhotoData) : GUIPhotoData :=
  match alookup m imp.id with
  | some guiPhotoData =>
      { guiPhotoData with
        file_name := imp.file_name
        photo_id := imp.id
        photo_src := normalSrc imp.id
        photo_lazy_src := lazySrc imp.id
        alt := imp.alt
        location := imp.location }
  | none =>
      match exif (originalPath ++ "/" ++ imp.file_name) with
      | some me => guiExifRecord imp me
      | none => guiFailRecord imp

/-- The photo-map update loop of the GUI merge: each entry's record is
computed against the current map and then inserted under the import id
(`gui_photo_data_lst.insert(import_photo_data.id, data)`). -/
def mergeGuiPhotoLoop (exif : ExifFs) (originalPath : String) :
    AList GUIPhotoData → List ImportPhotoData → AList GUIPhotoData
  | m, [] => m
  | m, imp :: rest =>
      mergeGuiPhotoLoop exif originalPath
        (ainsert m imp.id (mergeGuiRecord exif originalPath m imp)) rest

/-- The group-pruning step of the GUI merge: `photo_id_list` is filtered
to the ids still bound in the updated photo map. -/
def pruneGroup (photoMap : AList GUIPhotoData) (g : GUIGroupData) : GUIGroupData :=
  { g with
    photo_id_list := g.photo_id_list.filter (fun id => (alookup photoMap id).isSome) }

/-- `merge_gui_photo_data_based_and_import_photo_data` from
src/photodata.rs: update the photo map entry by entry, then rebuild the
group map with every group's member list pruned against the new photo
map. -/
def merge_gui_photo_data_based_and_import_photo_data (exif : ExifFs)
    (gui_photo_data_lst : AList GUIPhotoData)
    (gui_group_data_lst : AList GUIGroupData)
    (import_photo_data_lst : List ImportPhotoData)
    (original_path : String) : AList GUIPhotoData × AList GUIGroupData :=
  let newPhoto := mergeGuiPhotoLoop exif original_path gui_photo_data_lst import_photo_data_lst
  (newPhoto, gui_group_data_lst.map (fun p => (p.1, pruneGroup newPhoto p.2)))

/-- Keying a record list by `photo_id`, as `PhotagApp::new` (src/gui.rs)
and `load_photo_data_opt` (src/photodata.rs) do with `HashMap::insert`
(a later record with the same `photo_id` overwrites an earlier one). -/
def catalogOfList (l : List PhotoData) : AList PhotoData :=
  l.foldl (fun m pd => ainsert m pd.photo_id pd) []

/-! ### `parse_exif_data` (src/photodata.rs)

The kamadak-exif reader is an external capability; its output is
modelled as an `ExifInput`: the already-decoded `DateTimeOriginal`
value and the display strings of the other consulted tags.  The
function below is the success path of `parse_exif_data` over that
input, arm for arm. -/

/-- A decoded `exif::DateTime` (the numeric components that
`DateTime::from_ascii` yields). -/
structure ExifDateTime where
  year : Nat
  month : Nat
  day : Nat
  hour : Nat
  minute : Nat
deriving DecidableEq, Repr

/-- The tag values `parse_exif_data` consults, as returned by the
external reader (`none` = tag absent). -/
structure ExifInput where
  dateTimeOriginal : Option ExifDateTime
  lensMake : Option String
  lensModel : Option String
  shutterSpeed : Option String
  focalLength : Option String
  fNumber : Option String
  isoSpeed : Option String
deriving DecidableEq, Repr

/-- `parse_exif_data` from src/photodata.rs on a readable file: the
date tuple is built exactly as in the source
`(dt.year, dt.month, dt.hour, dt.hour, dt.minute)` — note that the
third component (bound to `day`) is `dt.hour` — the lens is
"maker model" when both tags are present, the model alone when only it
is present, and `None` otherwise, and `body` is always `None`. -/
def parse_exif_data (e : ExifInput) : MinimalExif :=
  let ymd : Option String × Option String × Option String × Option String × Option String :=
    match e.dateTimeOriginal with
    | some dt =>
        (some (Nat.repr dt.year), some (Nat.repr dt.month), some (Nat.repr dt.hour),
         some (Nat.repr dt.hour), some (Nat.repr dt.minute))
    | none => (none, none, none, none, none)
  let lens : Option String :=
    match e.lensMake, e.lensModel with
    | some maker, some model => some (maker ++ " " ++ model)
    | none, some model => some model
    | _, _ => none
  { year := ymd.1
    month := ymd.2.1
    day := ymd.2.2.1
    hour := ymd.2.2.2.1
    minutes := ymd.2.2.2.2
    body := none
    lens := lens
    time := e.shutterSpeed
    focal_length := e.focalLength
    f_value := e.fNumber
    iso := e.isoSpeed }

/-! ### `compression` (src/image.rs)

The mozjpeg decoder/encoder and the `image` crate resizer are external
capabilities.  The decoder's output is a `DecodedJpeg` (the captured
markers plus the pixel samples); the resizer is a parameter; and the
encoder is modelled by the trace of write events the Rust function
issues to it, in order: one `markerWrite` per captured marker, then one
`scanlineWrite` per row of the resized buffer. -/

/-- A mozjpeg marker type (`Marker`): an APPn or COM segment tag. -/
inductive MarkerKind : Type
  | app : Nat → MarkerKind
  | com : MarkerKind
deriving DecidableEq, Repr

/-- One captured non-pixel metadata segment: its marker type and its
payload bytes, kept verbatim. -/
structure JpegMarker where
  marker : MarkerKind
  data : List Nat
deriving DecidableEq, Repr

/-- What `Decompress::with_markers(ALL_MARKERS)` yields: every non-pixel
marker of the source plus the decoded RGB samples. -/
structure DecodedJpeg where
  markers : List JpegMarker
  width : Nat
  height : Nat
  pixels : List Nat
deriving DecidableEq, Repr

/-- One write issued to the mozjpeg compressor. -/
inductive CompressEvent : Type
  | markerWrite : JpegMarker → CompressEvent
  | scanlineWrite : List Nat → CompressEvent
deriving DecidableEq, Repr

/-- The `img.resize(size, size, Lanczos3)` capability:
`size → (width, height, pixels) → (width, height, pixels)`. -/
abbrev ResizeFn : Type := Nat → Nat × Nat × List Nat → Nat × Nat × List Nat

/-- The scanline loop of `compression`: row `line` is the slice
`data[line*width*3 .. (line+1)*width*3]`, for `line = 0 .. height-1`. -/
def scanlineRows (data : List Nat) (width height : Nat) : List (List Nat) :=
  (List.range height).map (fun line => (data.drop (line * width * 3)).take (width * 3))

/-- `compression` from src/image.rs as the trace of writes it issues:
capture all markers, decode, resize, then write every captured marker
followed by every scanline of the resized buffer. -/
def compression (resize : ResizeFn) (input : DecodedJpeg)
    (quality : Nat) (size : Nat) : List CompressEvent :=
  let markers := input.markers
  let resized := resize size (input.width, input.height, input.pixels)
  let _ := quality
  markers.map CompressEvent.markerWrite
    ++ (scanlineRows resized.2.2 resized.1 resized.2.1).map CompressEvent.scanlineWrite

/-! ### src/save.rs: intervals, trigger conditions, staleness, time map -/

/-- `MINUTES` from src/save.rs. -/
def MINUTES : Int := 60

/-- `SAVE_IMAGE_DIFF_TIME` from src/save.rs: the derivative interval. -/
def SAVE_IMAGE_DIFF_TIME : Int := MINUTES * 7

/-- `SAVE_JSON_DIFF_TIME` from src/save.rs: the metadata interval. -/
def SAVE_JSON_DIFF_TIME : Int := MINUTES

/-- `time_add_sec` from src/save.rs: chrono's `DateTime + FixedOffset`
shifts the instant by the offset's seconds. -/
def time_add_sec (time : Int) (sec : Int) : Int := time + sec

/-- The metadata-trigger condition of `PhotagApp::update` (src/gui.rs):
`time_add_sec(*json_save_time, SAVE_JSON_DIFF_TIME) > now`. -/
def json_trigger_fires (json_save_time now : Int) : Bool :=
  time_add_sec json_save_time SAVE_JSON_DIFF_TIME > now

/-- The derivative-trigger condition of `PhotagApp::update` (src/gui.rs):
`time_add_sec(*image_save_time, SAVE_IMAGE_DIFF_TIME) > now`. -/
def image_trigger_fires (image_save_time now : Int) : Bool :=
  time_add_sec image_save_time SAVE_IMAGE_DIFF_TIME > now

/-- The per-photo staleness decision taken by `PhotagApp::new` and
`PhotagApp::update` (src/gui.rs): regenerate when the time map has no
entry for the id, when `get_file_timestamp` returns `None`, or when the
stored instant is strictly earlier than the file's timestamp. -/
def is_stale (time_map : AList Int) (id : String) (file_timestamp : Option Int) : Bool :=
  match alookup time_map id with
  | some t =>
      match file_timestamp with
      | some ts => decide (t < ts)
      | none => true
  | none => true

/-- `TimeInfo` from src/save.rs: one `{id, time}` pair of time.json. -/
structure TimeInfo where
  id : String
  time : Int
deriving DecidableEq, Repr

/-! ### Loaders (src/photodata.rs, src/save.rs)

Each loader's filesystem interaction is its argument:
`none` models `File::open` failing (file absent or unreadable),
`some (.error ())` a file that opens but whose JSON does not parse,
`some (.ok l)` a parsed document.  `Except.error` in the result models
a Rust panic (`unwrap` on the serde result) or a propagated `Err`. -/

/-- `load_photo_data_opt` from src/photodata.rs: empty map when the file
cannot be opened; the parsed list keyed by `photo_id` otherwise; the
serde `unwrap` panics on a malformed document. -/
def load_photo_data_opt :
    Option (Except Unit (List PhotoData)) → Except Unit (AList PhotoData)
  | none => Except.ok []
  | some (Except.ok l) => Except.ok (catalogOfList l)
  | some (Except.error e) => Except.error e

/-- `get_time_info_lst` from src/save.rs: empty map when time.json
cannot be opened; the parsed pairs keyed by id otherwise; the serde
`unwrap` panics on a malformed document. -/
def get_time_info_lst :
    Option (Except Unit (List TimeInfo)) → Except Unit (AList Int)
  | none => Except.ok []
  | some (Except.ok l) =>
      Except.ok (l.foldl (fun m ti => ainsert m ti.id ti.time) [])
  | some (Except.error e) => Except.error e

/-- `load_group_data_from_work_directory` from src/photodata.rs: empty
list when group_data.json cannot be opened; the parse error is
propagated with `?` otherwise. -/
def load_group_data_from_work_directory :
    Option (Except Unit (List GroupData)) → Except Unit (List GroupData)
  | none => Except.ok []
  | some (Except.ok l) => Except.ok l
  | some (Except.error e) => Except.error e

/-! ### Saved documents (src/gui.rs)

`make_photo_data_json_str` and its siblings walk the id list and
`unwrap` the map lookup for each id; the JSON serialization itself is
external, so each builder is modelled as the ordered record sequence of
the document it writes, with `none` for the `unwrap` panic on a missing
id. -/

/-- The record sequence of photo_data.json
(`make_photo_data_json_str`, src/gui.rs). -/
def make_photo_data_json (photo_id_lst : List String)
    (photo_data_lst : AList GUIPhotoData) : Option (List PhotoData) :=
  photo_id_lst.mapM
    (fun id => (alookup photo_data_lst id).map gui_photo_data_to_photo_data)

/-- The record sequence of the written-back import manifest
(`make_import_photo_data_json_str`, src/gui.rs). -/
def make_import_photo_data_json (photo_id_lst : List String)
    (photo_data_lst : AList GUIPhotoData) : Option (List ImportPhotoData) :=
  photo_id_lst.mapM
    (fun id => (alookup photo_data_lst id).map gui_photo_data_to_import_photo_data)

/-- The record sequence of group_data.json
(`make_group_data_json_str`, src/gui.rs). -/
def make_group_data_json (group_id_lst : List String)
    (group_data_lst : AList GUIGroupData) : Option (List GroupData) :=
  group_id_lst.mapM
    (fun id => (alookup group_data_lst id).map gui_group_data_to_group_data)

/-- `save_file` from src/gui.rs: the three documents written on every
save, in source order. -/
def save_file (photo_id_lst : List String)
    (gui_photo_data_lst : AList GUIPhotoData)
    (group_id_lst : List String)
    (gui_group_data_lst : AList GUIGroupData) :
    Option (List PhotoData × List GroupData × List ImportPhotoData) := do
  let photoDoc ← make_photo_data_json photo_id_lst gui_photo_data_lst
  let groupDoc ← make_group_data_json group_id_lst gui_group_data_lst
  let importDoc ← make_import_photo_data_json photo_id_lst gui_photo_data_lst
  pure (photoDoc, groupDoc, importDoc)

/-- All-empty `GUIPhotoData`, used only as the default of a discharged
`Option.getD` in statements. -/
def emptyGuiPhotoData : GUIPhotoData where
  file_name := ""
  photo_id := ""
  photo_src := ""
  photo_lazy_src := ""
  alt := ""
  title := ""
  year := ""
  month := ""
  day := ""
  hour := ""
  minutes := ""
  body := ""
  lens := ""
  time := ""
  focal_length := ""
  f_value := ""
  iso := ""
  location := ""

/-- All-empty `GUIGroupData` (`make_dummy_gui_group_data`,
src/photodata.rs). -/
def make_dummy_gui_group_data : GUIGroupData where
  group_id := ""
  photo_id_list := []
  year := ""
  month := ""
  day := ""
  hour := ""
  minutes := ""
  title := ""
  description := ""
  location := ""

/-! ### Lemmas about the map model -/

theorem alookup_ainsert {α : Type} (m : AList α) (k' : String) (v : α) (k : String) :
    alookup (ainsert m k' v) k = if k' = k then some v else alookup m k := by
  induction m with
  | nil => simp [ainsert, alookup]
  | cons p rest ih =>
      obtain ⟨a, b⟩ := p
      by_cases hak : a = k' <;> by_cases hk : k' = k <;>
        simp_all [ainsert, alookup]

theorem alookup_foldl_ainsert (l : List PhotoData) (m : AList PhotoData) (k : String) :
    alookup (l.foldl (fun acc pd => ainsert acc pd.photo_id pd) m) k
      = l.foldl (fun acc pd => if pd.photo_id = k then some pd else acc) (alookup m k) := by
  induction l generalizing m with
  | nil => rfl
  | cons pd rest ih =>
      simp only [List.foldl_cons]
      rw [ih, alookup_ainsert]

theorem alookup_catalogOfList (l : List PhotoData) (k : String) :
    alookup (catalogOfList l) k
      = l.foldl (fun acc pd => if pd.photo_id = k then some pd else acc) none := by
  unfold catalogOfList
  rw [alookup_foldl_ainsert]
  rfl

theorem foldl_find_of_none (k : String) (l : List PhotoData)
    (h : ∀ r ∈ l, r.photo_id ≠ k) :
    l.foldl (fun acc pd => if pd.photo_id = k then some pd else acc) none = none := by
  induction l with
  | nil => rfl
  | cons a rest ih =>
      have ha : a.photo_id ≠ k := h a (List.mem_cons_self a rest)
      simp only [List.foldl_cons, if_neg ha]
      exact ih (fun r hr => h r (List.mem_cons_of_mem a hr))

theorem foldl_find_keep (k : String) (r : PhotoData) (l : List PhotoData)
    (h : ∀ pd ∈ l, pd.photo_id = k → pd = r) :
    l.foldl (fun acc pd => if pd.photo_id = k then some pd else acc) (some r) = some r := by
  induction l with
  | nil => rfl
  | cons a rest ih =>
      simp only [List.foldl_cons]
      by_cases ha : a.photo_id = k
      · rw [if_pos ha, h a (List.mem_cons_self a rest) ha]
        exact ih (fun pd hpd => h pd (List.mem_cons_of_mem a hpd))
      · rw [if_neg ha]
        exact ih (fun pd hpd => h pd (List.mem_cons_of_mem a hpd))

theorem foldl_find_unique (k : String) (r : PhotoData) (l : List PhotoData)
    (hmem : r ∈ l) (hrk : r.photo_id = k)
    (h : ∀ pd ∈ l, pd.photo_id = k → pd = r) :
    l.foldl (fun acc pd => if pd.photo_id = k then some pd else acc) none = some r := by
  induction l with
  | nil => cases hmem
  | cons a rest ih =>
      simp only [List.foldl_cons]
      by_cases ha : a.photo_id = k
      · rw [if_pos ha, h a (List.mem_cons_self a rest) ha]
        exact foldl_find_keep k r rest (fun pd hpd => h pd (List.mem_cons_of_mem a hpd))
      · rw [if_neg ha]
        have hr : r ∈ rest := by
          rcases List.mem_cons.mp hmem with h1 | h1
          · subst h1; exact absurd hrk ha
          · exact h1
        exact ih hr (fun pd hpd => h pd (List.mem_cons_of_mem a hpd))

/-! ### Lemmas about the per-entry merge -/

theorem mergeRecord_photo_id_cases (exif : ExifFs) (op : String)
    (orig : AList PhotoData) (x : ImportPhotoData) :
    (mergeRecord exif op orig x).photo_id = x.id ∨
      (mergeRecord exif op orig x).photo_id = "" := by
  unfold mergeRecord
  cases alookup orig x.id with
  | some pd => left; rfl
  | none =>
      cases exif (op ++ "/" ++ x.file_name) with
      | some me => left; rfl
      | none => right; rfl

theorem mergeRecord_common_fields (exif : ExifFs) (op : String)
    (orig : AList PhotoData) (x : ImportPhotoData) :
    (mergeRecord exif op orig x).file_name = x.file_name ∧
    (mergeRecord exif op orig x).photo_src = normalSrc x.id ∧
    (mergeRecord exif op orig x).photo_lazy_src = lazySrc x.id ∧
    (mergeRecord exif op orig x).alt = x.alt ∧
    (mergeRecord exif op orig x).location = x.location := by
  unfold mergeRecord
  cases alookup orig x.id with
  | some pd => exact ⟨rfl, rfl, rfl, rfl, rfl⟩
  | none =>
      cases exif (op ++ "/" ++ x.file_name) with
      | some me => exact ⟨rfl, rfl, rfl, rfl, rfl⟩
      | none => exact ⟨rfl, rfl, rfl, rfl, rfl⟩

theorem mergeRecord_absorb (exif : ExifFs) (op : String) (M : AList PhotoData)
    (x : ImportPhotoData) (r : PhotoData)
    (hl : alookup M x.id = some r)
    (h1 : r.file_name = x.file_name) (h2 : r.photo_id = x.id)
    (h3 : r.photo_src = normalSrc x.id) (h4 : r.photo_lazy_src = lazySrc x.id)
    (h5 : r.alt = x.alt) (h6 : r.location = x.location) :
    mergeRecord exif op M x = r := by
  unfold mergeRecord
  rw [hl]
  cases r
  simp_all

theorem mergeRecord_fail_inv (exif : ExifFs) (op : String)
    (orig : AList PhotoData) (x : ImportPhotoData) (hxne : x.id ≠ "")
    (hid : (mergeRecord exif op orig x).photo_id = "") :
    alookup orig x.id = none ∧ exif (op ++ "/" ++ x.file_name) = none ∧
      mergeRecord exif op orig x = failRecord x := by
  cases h1 : alookup orig x.id with
  | some pd =>
      rw [show mergeRecord exif op orig x
            = { pd with
                file_name := x.file_name
                photo_id := x.id
                photo_src := normalSrc x.id
                photo_lazy_src := lazySrc x.id
                alt := x.alt
                location := x.location } by unfold mergeRecord; rw [h1]] at hid
      exact absurd hid hxne
  | none =>
      cases h2 : exif (op ++ "/" ++ x.file_name) with
      | some me =>
          rw [show mergeRecord exif op orig x = exifRecord x me by
                unfold mergeRecord; rw [h1, h2]] at hid
          exact absurd hid hxne
      | none =>
          refine ⟨rfl, rfl, ?_⟩
          unfold mergeRecord
          rw [h1, h2]

theorem mergeRecord_of_lookup_none (exif : ExifFs) (op : String)
    (M : AList PhotoData) (x : ImportPhotoData)
    (hM : alookup M x.id = none)
    (h2 : exif (op ++ "/" ++ x.file_name) = none) :
    mergeRecord exif op M x = failRecord x := by
  unfold mergeRecord
  rw [hM, h2]

theorem merge_idem_pointwise (exif : ExifFs) (op : String) (orig : AList PhotoData)
    (imports : List ImportPhotoData)
    (hnodup : (imports.map (fun i => i.id)).Nodup)
    (hne : ∀ imp ∈ imports, imp.id ≠ "")
    (x : ImportPhotoData) (hx : x ∈ imports) :
    mergeRecord exif op
      (catalogOfList (imports.map (mergeRecord exif op orig))) x
      = mergeRecord exif op orig x := by
  have hinj : ∀ y ∈ imports, ∀ z ∈ imports, y.id = z.id → y = z :=
    fun y hy z hz h => List.inj_on_of_nodup_map hnodup hy hz h
  have hxne : x.id ≠ "" := hne x hx
  obtain ⟨hc1, hc3, hc4, hc5, hc6⟩ := mergeRecord_common_fields exif op orig x
  rcases mergeRecord_photo_id_cases exif op orig x with hid | hid
  · have huniq : ∀ pd ∈ imports.map (mergeRecord exif op orig),
        pd.photo_id = x.id → pd = mergeRecord exif op orig x := by
      intro pd hpd hpdk
      obtain ⟨y, hy, rfl⟩ := List.mem_map.mp hpd
      rcases mergeRecord_photo_id_cases exif op orig y with hyid | hyid
      · have hyx : y = x := hinj y hy x hx (hyid ▸ hpdk)
        rw [hyx]
      · rw [hyid] at hpdk
        exact absurd hpdk.symm hxne
    have hlook : alookup
        (catalogOfList (imports.map (mergeRecord exif op orig))) x.id
        = some (mergeRecord exif op orig x) := by
      rw [alookup_catalogOfList]
      exact foldl_find_unique x.id (mergeRecord exif op orig x) _
        (List.mem_map_of_mem (mergeRecord exif op orig) hx) hid huniq
    exact mergeRecord_absorb exif op _ x (mergeRecord exif op orig x)
      hlook hc1 hid hc3 hc4 hc5 hc6
  · obtain ⟨h1, h2, hfx⟩ := mergeRecord_fail_inv exif op orig x hxne hid
    have hnone : alookup
        (catalogOfList (imports.map (mergeRecord exif op orig))) x.id = none := by
      rw [alookup_catalogOfList]
      apply foldl_find_of_none
      intro pd hpd
      obtain ⟨y, hy, rfl⟩ := List.mem_map.mp hpd
      rcases mergeRecord_photo_id_cases exif op orig y with hyid | hyid
      · rw [hyid]
        intro hcon
        have hyx : y = x := hinj y hy x hx hcon
        rw [hyx, hid] at hyid
        exact hxne hyid.symm
      · rw [hyid]
        exact Ne.symm hxne
    rw [hfx, mergeRecord_of_lookup_none exif op _ x hnone h2]

/-! ### Concrete instances used by witnesses and counterexamples -/

/-- EXIF extractor that fails on every path. -/
def exifAllFail : ExifFs := fun _ => none

/-- A concrete import entry. -/
def wImp : ImportPhotoData where
  file_name := "new.JPG"
  id := "a"
  alt := "newalt"
  location := "newloc"

/-- A concrete pre-existing catalog record whose locators differ from
the recomputed ones and whose user fields are set. -/
def wPd : PhotoData where
  file_name := "old.JPG"
  photo_id := "a"
  photo_src := "oldsrc"
  photo_lazy_src := "oldlazy"
  alt := "oldalt"
  title := some "Sunset"
  year := some "2020"
  month := none
  day := none
  hour := none
  minutes := none
  body := none
  lens := none
  time := some "1/250"
  focal_length := none
  f_value := none
  iso := none
  location := "oldloc"

/-! ### Claim C1 -/

/-- C1 (amended): when the catalog already holds a record under the id
of the import entry, the reconciled record at that manifest position is
the existing record with `file_name`, `alt`, `location` taken from the
entry, with `photo_id` set to the import id, and the two locators
recomputed as `/images/normal/{id}.JPG` and `/images/lazy/{id}.JPG`;
`title` and every optional EXIF-derived/user-edited field are preserved
unchanged (they are carried over from `pd` by the record update). -/
theorem c1_existing_record_merge (exif : ExifFs) (op : String)
    (orig : AList PhotoData) (imports : List ImportPhotoData)
    (i : Nat) (imp : ImportPhotoData) (pd : PhotoData)
    (hi : imports.get? i = some imp)
    (h : alookup orig imp.id = some pd) :
    ((merge_photo_data_based_and_import_photo_data exif orig imports op).2).get? i
      = some { pd with
          file_name := imp.file_name
          photo_id := imp.id
          photo_src := normalSrc imp.id
          photo_lazy_src := lazySrc imp.id
          alt := imp.alt
          location := imp.location } := by
  have he : (merge_photo_data_based_and_import_photo_data exif orig imports op).2
      = imports.map (mergeRecord exif op orig) := rfl
  rw [he, List.get?_map, hi, Option.map_some']
  unfold mergeRecord
  rw [h]

/-- C1 witness: the amended statement at a concrete catalog and
manifest. -/
theorem c1_existing_record_merge_witness :
    ((merge_photo_data_based_and_import_photo_data exifAllFail
        [("a", wPd)] [wImp] "orig").2).get? 0
      = some { wPd with
          file_name := wImp.file_name
          photo_id := wImp.id
          photo_src := normalSrc wImp.id
          photo_lazy_src := lazySrc wImp.id
          alt := wImp.alt
          location := wImp.location } :=
  c1_existing_record_merge exifAllFail "orig" [("a", wPd)] [wImp] 0 wImp wPd rfl rfl

/-- C1 counterexample: the claim as stated — the reconciled record
equals the existing record except for `file_name`, `alt`, `location` —
fails, because the merge also rewrites `photo_src`/`photo_lazy_src`
(and `photo_id`): here the existing record's `photo_src` is `"oldsrc"`
while the reconciled one carries `/images/normal/a.JPG`. -/
theorem c1_counterexample :
    ((merge_photo_data_based_and_import_photo_data exifAllFail
        [("a", wPd)] [wImp] "orig").2).get? 0
      ≠ some { wPd with
          file_name := wImp.file_name
          alt := wImp.alt
          location := wImp.location } := by
  decide

/-! ### Claim C2 -/

/-- C2: an import entry with a new id whose EXIF extraction fails still
yields a record — `photo_id` empty, `title` and every optional field
absent, `alt`/`location` from the import record — and the whole
reconciliation still succeeds: the output has one record per manifest
entry and every other entry is reconciled exactly as it would be on its
own. -/
theorem c2_exif_failure_lenient (exif : ExifFs) (op : String)
    (orig : AList PhotoData) (imports : List ImportPhotoData)
    (i : Nat) (imp : ImportPhotoData)
    (hi : imports.get? i = some imp)
    (hnew : alookup orig imp.id = none)
    (hfail : exif (op ++ "/" ++ imp.file_name) = none) :
    ((merge_photo_data_based_and_import_photo_data exif orig imports op).2).get? i
        = some (failRecord imp) ∧
    (failRecord imp).photo_id = "" ∧
    (failRecord imp).title = none ∧ (failRecord imp).year = none ∧
    (failRecord imp).month = none ∧ (failRecord imp).day = none ∧
    (failRecord imp).hour = none ∧ (failRecord imp).minutes = none ∧
    (failRecord imp).body = none ∧ (failRecord imp).lens = none ∧
    (failRecord imp).time = none ∧ (failRecord imp).focal_length = none ∧
    (failRecord imp).f_value = none ∧ (failRecord imp).iso = none ∧
    (failRecord imp).alt = imp.alt ∧ (failRecord imp).location = imp.location ∧
    ((merge_photo_data_based_and_import_photo_data exif orig imports op).2).length
        = imports.length ∧
    (∀ j imp2, imports.get? j = some imp2 →
      ((merge_photo_data_based_and_import_photo_data exif orig imports op).2).get? j
        = some (mergeRecord exif op orig imp2)) := by
  have he : (merge_photo_data_based_and_import_photo_data exif orig imports op).2
      = imports.map (mergeRecord exif op orig) := rfl
  refine ⟨?_, rfl, rfl, rfl, rfl, rfl, rfl, rfl, rfl, rfl, rfl, rfl, rfl, rfl,
    rfl, rfl, ?_, ?_⟩
  · rw [he, List.get?_map, hi, Option.map_some',
      mergeRecord_of_lookup_none exif op orig imp hnew hfail]
  · rw [he]
    exact List.length_map _ _
  · intro j imp2 hj
    rw [he, List.get?_map, hj, Option.map_some']

/-- C2 witness: one-entry manifest over an empty catalog with a failing
extractor. -/
theorem c2_exif_failure_lenient_witness :
    ((merge_photo_data_based_and_import_photo_data exifAllFail
        [] [wImp] "orig").2).get? 0 = some (failRecord wImp) :=
  (c2_exif_failure_lenient exifAllFail "orig" [] [wImp] 0 wImp rfl rfl rfl).1

/-! ### Claim C3 -/

/-- C3 (amended): the catalog-rebuild merge is idempotent — keying its
output records by `photo_id` and merging the unchanged manifest again
reproduces the identical output, also on entries whose EXIF extraction
fails — provided the manifest ids are pairwise distinct and none is the
empty string (the empty string is the failure sentinel used as
`photo_id`). -/
theorem c3_merge_idempotent (exif : ExifFs) (op : String)
    (orig : AList PhotoData) (imports : List ImportPhotoData)
    (hnodup : (imports.map (fun i => i.id)).Nodup)
    (hne : ∀ imp ∈ imports, imp.id ≠ "") :
    merge_photo_data_based_and_import_photo_data exif
      (catalogOfList
        (merge_photo_data_based_and_import_photo_data exif orig imports op).2)
      imports op
      = merge_photo_data_based_and_import_photo_data exif orig imports op := by
  have he : (merge_photo_data_based_and_import_photo_data exif orig imports op).2
      = imports.map (mergeRecord exif op orig) := rfl
  rw [he]
  unfold merge_photo_data_based_and_import_photo_data
  exact congrArg (Prod.mk _)
    (List.map_congr_left
      (fun x hx => merge_idem_pointwise exif op orig imports hnodup hne x hx))

/-- C3 witness: the amended statement at a concrete one-entry manifest
whose EXIF extraction fails. -/
theorem c3_merge_idempotent_witness :
    merge_photo_data_based_and_import_photo_data exifAllFail
      (catalogOfList
        (merge_photo_data_based_and_import_photo_data exifAllFail [] [wImp] "orig").2)
      [wImp] "orig"
      = merge_photo_data_based_and_import_photo_data exifAllFail [] [wImp] "orig" :=
  c3_merge_idempotent exifAllFail "orig" [] [wImp] (by decide) (by decide)

/-- Manifest for the C3 counterexample: one well-formed entry whose
EXIF extraction fails. -/
def c3Imports : List ImportPhotoData :=
  [{ file_name := "f1.JPG", id := "a", alt := "al", location := "lo" }]

/-- First run of the GUI merge on an empty catalog. -/
def c3FirstRun : AList GUIPhotoData × AList GUIGroupData :=
  merge_gui_photo_data_based_and_import_photo_data exifAllFail [] [] c3Imports "orig"

/-- Second run of the GUI merge on the catalog the first run produced. -/
def c3SecondRun : AList GUIPhotoData × AList GUIGroupData :=
  merge_gui_photo_data_based_and_import_photo_data exifAllFail
    c3FirstRun.1 c3FirstRun.2 c3Imports "orig"

/-- C3 counterexample: the claim as stated fails on the GUI-map merge —
re-running the unchanged manifest over the catalog produced by the
first run changes the catalog: the first run stores the failure record
with the empty `photo_id` sentinel under key `"a"`, and the second run
finds it and overwrites `photo_id` with `"a"`. -/
theorem c3_counterexample : c3SecondRun ≠ c3FirstRun := by
  decide

/-! ### Claim C4 -/

/-- C4: the staleness decision — regenerate exactly when the time map
has no entry for the id, or the source file's timestamp cannot be read,
or the stored last-derivation instant is strictly earlier than the
source timestamp; equivalently, no regeneration exactly when a stored
instant exists that is greater than or equal to a readable source
timestamp. -/
theorem c4_staleness_decision (time_map : AList Int) (id : String)
    (ts : Option Int) :
    (is_stale time_map id ts = true ↔
      alookup time_map id = none ∨ ts = none ∨
        ∃ t s, alookup time_map id = some t ∧ ts = some s ∧ t < s) ∧
    (is_stale time_map id ts = false ↔
      ∃ t s, alookup time_map id = some t ∧ ts = some s ∧ s ≤ t) := by
  rcases hm : alookup time_map id with _ | t <;> rcases hts : ts with _ | s <;>
    simp [is_stale, hm, hts, not_lt]

/-- C4 witness: an id with no time-map entry is stale. -/
theorem c4_staleness_decision_witness : is_stale [] "p1" none = true :=
  (c4_staleness_decision [] "p1" none).1.mpr (Or.inl rfl)

/-! ### Claim C5 -/

/-- EXIF input for C5: DateTimeOriginal 2020-03-04 05:06, only
`LensMake` present, and all other consulted tags set. -/
def c5Input : ExifInput where
  dateTimeOriginal := some { year := 2020, month := 3, day := 4, hour := 5, minute := 6 }
  lensMake := some "SIGMA"
  lensModel := none
  shutterSpeed := some "1/250"
  focalLength := some "35"
  fNumber := some "1.8"
  isoSpeed := some "100"

/-- C5: evaluating `parse_exif_data` at the failing input.  The
`DateTimeOriginal` day component is 4, yet the record's `day` field is
`"5"` — the source builds the tuple `(year, month, hour, hour, minute)`
and so stores the hour in `day` — and the lens is dropped although
`LensMake` is present, because the match keeps only the model when the
pair is not complete.  Year, month, hour, minutes, shutter speed, focal
length, f-number, ISO and the never-derived `body` behave as claimed. -/
theorem c5_day_field_gets_hour :
    (parse_exif_data c5Input).day = some "5" ∧
    c5Input.dateTimeOriginal.map (fun dt => dt.day) = some 4 ∧
    (parse_exif_data c5Input).day ≠ some (Nat.repr 4) ∧
    (parse_exif_data c5Input).lens = none ∧
    (parse_exif_data c5Input).year = some "2020" ∧
    (parse_exif_data c5Input).month = some "3" ∧
    (parse_exif_data c5Input).hour = some "5" ∧
    (parse_exif_data c5Input).minutes = some "6" ∧
    (parse_exif_data c5Input).time = some "1/250" ∧
    (parse_exif_data c5Input).focal_length = some "35" ∧
    (parse_exif_data c5Input).f_value = some "1.8" ∧
    (parse_exif_data c5Input).iso = some "100" ∧
    (parse_exif_data c5Input).body = none := by
  decide

/-! ### Claim C6 -/

/-- C6: every marker captured from the decoded input appears in the
compressor's write trace, and every marker write precedes every
scanline write. -/
theorem c6_markers_preserved (resize : ResizeFn) (input : DecodedJpeg)
    (quality size : Nat) :
    (∀ m ∈ input.markers,
      CompressEvent.markerWrite m ∈ compression resize input quality size) ∧
    (∀ i j r m,
      (compression resize input quality size).get? i
          = some (CompressEvent.scanlineWrite r) →
      (compression resize input quality size).get? j
          = some (CompressEvent.markerWrite m) → j < i) := by
  constructor
  · intro m hm
    exact List.mem_append_left _
      (List.mem_map_of_mem CompressEvent.markerWrite hm)
  · intro i j r m hi hj
    have hcomp : compression resize input quality size
        = input.markers.map CompressEvent.markerWrite
          ++ (scanlineRows
                (resize size (input.width, input.height, input.pixels)).2.2
                (resize size (input.width, input.height, input.pixels)).1
                (resize size (input.width, input.height, input.pixels)).2.1).map
              CompressEvent.scanlineWrite := rfl
    have hiA : ¬ i < (input.markers.map CompressEvent.markerWrite).length := by
      intro hlt
      rw [hcomp, List.get?_append hlt, List.get?_map] at hi
      cases hmk : input.markers.get? i with
      | none => rw [hmk] at hi; exact Option.noConfusion hi
      | some mk => rw [hmk] at hi; simp at hi
    have hjA : j < (input.markers.map CompressEvent.markerWrite).length := by
      by_contra hge
      push_neg at hge
      rw [hcomp, List.get?_append_right hge, List.get?_map] at hj
      cases hmk : (scanlineRows
          (resize size (input.width, input.height, input.pixels)).2.2
          (resize size (input.width, input.height, input.pixels)).1
          (resize size (input.width, input.height, input.pixels)).2.1).get?
            (j - (input.markers.map CompressEvent.markerWrite).length) with
      | none => rw [hmk] at hj; exact Option.noConfusion hj
      | some row => rw [hmk] at hj; simp at hj
    omega

/-- The identity resize capability, for the C6 witness. -/
def idResize : ResizeFn := fun _ t => t

/-- A one-marker, one-pixel decoded input for the C6 witness. -/
def c6Input : DecodedJpeg where
  markers := [{ marker := MarkerKind.app 1, data := [69, 120, 105, 102] }]
  width := 1
  height := 1
  pixels := [10, 20, 30]

/-- The marker of `c6Input`. -/
def c6Marker : JpegMarker where
  marker := MarkerKind.app 1
  data := [69, 120, 105, 102]

/-- C6 witness: the captured marker is written on the concrete input. -/
theorem c6_markers_preserved_witness :
    CompressEvent.markerWrite c6Marker ∈ compression idResize c6Input 75 32 :=
  (c6_markers_preserved idResize c6Input 75 32).1 c6Marker (by decide)

/-! ### Claim C7 -/

theorem alookup_map_snd {α β : Type} (m : AList α) (g : α → β) (k : String) :
    alookup (m.map (fun p => (p.1, g p.2))) k = (alookup m k).map g := by
  induction m with
  | nil => rfl
  | cons p rest ih =>
      obtain ⟨a, b⟩ := p
      by_cases hak : a = k <;> simp [alookup, hak, ih]

/-- C7: after the GUI merge, each group keeps exactly those ids of its
previous `photo_id_list` that are bound in the new photo map, in their
original relative order (the pruned list is a sublist of the old one),
with every other group field unchanged; the merge is total, so nothing
is reported for the dropped ids. -/
theorem c7_group_pruning (exif : ExifFs) (op : String)
    (pm : AList GUIPhotoData) (gm : AList GUIGroupData)
    (imports : List ImportPhotoData) (gid : String) (g : GUIGroupData)
    (h : alookup gm gid = some g) :
    alookup (merge_gui_photo_data_based_and_import_photo_data
        exif pm gm imports op).2 gid
      = some (pruneGroup (mergeGuiPhotoLoop exif op pm imports) g) ∧
    (pruneGroup (mergeGuiPhotoLoop exif op pm imports) g).photo_id_list.Sublist
      g.photo_id_list ∧
    (∀ pid, pid ∈ (pruneGroup (mergeGuiPhotoLoop exif op pm imports) g).photo_id_list
        ↔ pid ∈ g.photo_id_list ∧
          (alookup (merge_gui_photo_data_based_and_import_photo_data
              exif pm gm imports op).1 pid).isSome = true) ∧
    (pruneGroup (mergeGuiPhotoLoop exif op pm imports) g).group_id = g.group_id ∧
    (pruneGroup (mergeGuiPhotoLoop exif op pm imports) g).year = g.year ∧
    (pruneGroup (mergeGuiPhotoLoop exif op pm imports) g).month = g.month ∧
    (pruneGroup (mergeGuiPhotoLoop exif op pm imports) g).day = g.day ∧
    (pruneGroup (mergeGuiPhotoLoop exif op pm imports) g).hour = g.hour ∧
    (pruneGroup (mergeGuiPhotoLoop exif op pm imports) g).minutes = g.minutes ∧
    (pruneGroup (mergeGuiPhotoLoop exif op pm imports) g).title = g.title ∧
    (pruneGroup (mergeGuiPhotoLoop exif op pm imports) g).description
        = g.description ∧
    (pruneGroup (mergeGuiPhotoLoop exif op pm imports) g).location = g.location := by
  have hsnd : (merge_gui_photo_data_based_and_import_photo_data
      exif pm gm imports op).2
      = gm.map (fun p =>
          (p.1, pruneGroup (mergeGuiPhotoLoop exif op pm imports) p.2)) := rfl
  have hfst : (merge_gui_photo_data_based_and_import_photo_data
      exif pm gm imports op).1 = mergeGuiPhotoLoop exif op pm imports := rfl
  refine ⟨?_, ?_, ?_, rfl, rfl, rfl, rfl, rfl, rfl, rfl, rfl, rfl⟩
  · rw [hsnd, alookup_map_snd, h, Option.map_some']
  · exact List.filter_sublist _
  · intro pid
    rw [hfst]
    simp [pruneGroup, List.mem_filter]

/-- Photo map for the C7 witness: records bound under `"A"` and `"C"`
only. -/
def c7Pm : AList GUIPhotoData :=
  [("A", emptyGuiPhotoData), ("C", emptyGuiPhotoData)]

/-- Group for the C7 witness: members `A`, `B`, `C`. -/
def c7Group : GUIGroupData :=
  { make_dummy_gui_group_data with
    group_id := "g1"
    photo_id_list := ["A", "B", "C"]
    title := "t"
    description := "d" }

/-- C7 witness: on the concrete input the group's list is pruned to the
bound ids. -/
theorem c7_group_pruning_witness :
    alookup (merge_gui_photo_data_based_and_import_photo_data
        exifAllFail c7Pm [("g1", c7Group)] [] "orig").2 "g1"
      = some (pruneGroup (mergeGuiPhotoLoop exifAllFail "orig" c7Pm []) c7Group) ∧
    (pruneGroup (mergeGuiPhotoLoop exifAllFail "orig" c7Pm []) c7Group).photo_id_list
      = ["A", "C"] :=
  ⟨(c7_group_pruning exifAllFail "orig" c7Pm [("g1", c7Group)] [] "g1" c7Group
      rfl).1,
   by decide⟩

/-! ### Claim C8 -/

/-- C8: the trigger conditions are inverted.  With the stored firing
instant at 0 and the clock at 30 — thirty seconds elapsed, below both
thresholds — both triggers fire, and with the clock past a threshold
the corresponding trigger does not fire; in general the code's
condition `time_add_sec(last, T) > now` fires exactly while the elapsed
time is still strictly below the interval. -/
theorem c8_trigger_condition_inverted :
    json_trigger_fires 0 30 = true ∧
    image_trigger_fires 0 30 = true ∧
    (30 : Int) < SAVE_JSON_DIFF_TIME ∧
    (30 : Int) < SAVE_IMAGE_DIFF_TIME ∧
    json_trigger_fires 0 100 = false ∧
    SAVE_JSON_DIFF_TIME < 100 ∧
    image_trigger_fires 0 1000 = false ∧
    SAVE_IMAGE_DIFF_TIME < 1000 ∧
    (∀ last now : Int,
      json_trigger_fires last now = true ↔ now - last < SAVE_JSON_DIFF_TIME) ∧
    (∀ last now : Int,
      image_trigger_fires last now = true ↔ now - last < SAVE_IMAGE_DIFF_TIME) := by
  refine ⟨by decide, by decide, by decide, by decide, by decide, by decide,
    by decide, by decide, ?_, ?_⟩
  · intro last now
    simp only [json_trigger_fires, time_add_sec, SAVE_JSON_DIFF_TIME, MINUTES,
      gt_iff_lt, decide_eq_true_eq]
    omega
  · intro last now
    simp only [image_trigger_fires, time_add_sec, SAVE_IMAGE_DIFF_TIME, MINUTES,
      gt_iff_lt, decide_eq_true_eq]
    omega

/-- C8 witness: a trigger fires 30 seconds after its last firing. -/
theorem c8_trigger_condition_inverted_witness : json_trigger_fires 100 130 = true :=
  (c8_trigger_condition_inverted.2.2.2.2.2.2.2.2.1 100 130).mpr (by decide)

/-! ### Claim C9 -/

/-- C9: when the backing file cannot be opened (absent or unreadable),
each loader returns its empty structure — empty photo map, empty time
map, empty group list — and no error. -/
theorem c9_missing_files_load_empty :
    load_photo_data_opt none = Except.ok ([] : AList PhotoData) ∧
    get_time_info_lst none = Except.ok ([] : AList Int) ∧
    load_group_data_from_work_directory none = Except.ok ([] : List GroupData) :=
  ⟨rfl, rfl, rfl⟩

/-! ### Claim C10 -/

theorem mapM_alookup_eq {α β : Type} (ids : List String) (m : AList α)
    (f : α → β) (d : α)
    (h : ∀ id ∈ ids, (alookup m id).isSome = true) :
    ids.mapM (fun id => (alookup m id).map f)
      = some (ids.map (fun id => f ((alookup m id).getD d))) := by
  induction ids with
  | nil => rfl
  | cons a rest ih =>
      have ha : (alookup m a).isSome = true := h a (List.mem_cons_self a rest)
      obtain ⟨v, hv⟩ := Option.isSome_iff_exists.mp ha
      rw [List.mapM_cons, ih (fun id hid => h id (List.mem_cons_of_mem a hid))]
      simp [hv]

/-- C10: when every listed id is bound in its map, each saved document
is exactly the listed ids' records, converted, in list order — so a
record whose id is not listed appears in no document. -/
theorem c10_saved_documents (photo_id_lst group_id_lst : List String)
    (pm : AList GUIPhotoData) (gm : AList GUIGroupData)
    (hp : ∀ id ∈ photo_id_lst, (alookup pm id).isSome = true)
    (hg : ∀ id ∈ group_id_lst, (alookup gm id).isSome = true) :
    make_photo_data_json photo_id_lst pm
        = some (photo_id_lst.map (fun id =>
            gui_photo_data_to_photo_data ((alookup pm id).getD emptyGuiPhotoData))) ∧
    make_import_photo_data_json photo_id_lst pm
        = some (photo_id_lst.map (fun id =>
            gui_photo_data_to_import_photo_data
              ((alookup pm id).getD emptyGuiPhotoData))) ∧
    make_group_data_json group_id_lst gm
        = some (group_id_lst.map (fun id =>
            gui_group_data_to_group_data
              ((alookup gm id).getD make_dummy_gui_group_data))) ∧
    save_file photo_id_lst pm group_id_lst gm
        = some
            (photo_id_lst.map (fun id =>
              gui_photo_data_to_photo_data ((alookup pm id).getD emptyGuiPhotoData)),
             group_id_lst.map (fun id =>
              gui_group_data_to_group_data
                ((alookup gm id).getD make_dummy_gui_group_data)),
             photo_id_lst.map (fun id =>
              gui_photo_data_to_import_photo_data
                ((alookup pm id).getD emptyGuiPhotoData))) := by
  have h1 : make_photo_data_json photo_id_lst pm
      = some (photo_id_lst.map (fun id =>
          gui_photo_data_to_photo_data ((alookup pm id).getD emptyGuiPhotoData))) :=
    mapM_alookup_eq photo_id_lst pm gui_photo_data_to_photo_data
      emptyGuiPhotoData hp
  have h2 : make_import_photo_data_json photo_id_lst pm
      = some (photo_id_lst.map (fun id =>
          gui_photo_data_to_import_photo_data
            ((alookup pm id).getD emptyGuiPhotoData))) :=
    mapM_alookup_eq photo_id_lst pm gui_photo_data_to_import_photo_data
      emptyGuiPhotoData hp
  have h3 : make_group_data_json group_id_lst gm
      = some (group_id_lst.map (fun id =>
          gui_group_data_to_group_data
            ((alookup gm id).getD make_dummy_gui_group_data))) :=
    mapM_alookup_eq group_id_lst gm gui_group_data_to_group_data
      make_dummy_gui_group_data hg
  refine ⟨h1, h2, h3, ?_⟩
  unfold save_file
  rw [h1, h3, h2]
  rfl

/-- C10 witness: a one-id list over the concrete photo map. -/
theorem c10_saved_documents_witness :
    make_photo_data_json ["A"] c7Pm
      = some [gui_photo_data_to_photo_data
          ((alookup c7Pm "A").getD emptyGuiPhotoData)] :=
  (c10_saved_documents ["A"] [] c7Pm [] (by decide) (by decide)).1

end Photag
